import Mathlib

set_option maxRecDepth 100000

/-!
Verification of the scrybe ingestion core against its specification.

Shallow embedding of the Rust sources:
  - crates/scrybe-gateway/src/middleware/auth.rs  (HMAC authentication middleware)
  - crates/scrybe-cache/src/nonce.rs              (nonce replay protection)
  - crates/scrybe-cache/src/rate_limit.rs         (rate limiting)
  - crates/scrybe-enrichment/src/fingerprint.rs   (fingerprint generation)
  - crates/scrybe-core/src/types/session.rs       (Fingerprint type and constructor)

Modelling conventions:
  - Bytes are `Nat` values kept below 256 by construction; byte strings are
    `List Nat`.
  - Rust `i64` values are modelled as mathematical `Int` (no overflow occurs
    in the regimes the claims quantify over).
  - `f32` confidence weights (0.25, 0.15, 0.10, 0.05) are modelled as the
    exact rationals they denote; the `f32` pixel ratio is modelled by its
    IEEE-754 bit pattern, which is all the code ever consumes (via
    `to_le_bytes`).
  - SHA-256 and HMAC-SHA256 (external `sha2`/`hmac` crates) are implemented
    concretely, byte for byte per FIPS 180-4 / FIPS 198-1.
  - BLAKE3 (external `blake3` crate) is modelled by a fixed deterministic
    digest of the fed byte stream with 64-lowercase-hex output
    (domain-separated SHA-256); every theorem below depends only on it being
    a fixed function of the byte stream fed through `Hasher::update`.
  - Redis is modelled as a shared key-value store with absolute expiry
    times; each store round-trip of the code becomes one command of a
    `RedisCmd` trace, so claims about how many store calls an operation
    issues are claims about the trace.
-/

/-- Reduction of a machine word to 32 bits, the wrapping `u32` arithmetic of
the sha2 crate. -/
def w32 (n : Nat) : Nat := n % 4294967296

/-- Right rotation of a 32-bit word. -/
def rotr32 (x n : Nat) : Nat := w32 ((x >>> n) ||| (x <<< (32 - n)))

/-- SHA-256 choice function. -/
def shaCh (x y z : Nat) : Nat := (x &&& y) ^^^ ((x ^^^ 4294967295) &&& z)

/-- SHA-256 majority function. -/
def shaMaj (x y z : Nat) : Nat := (x &&& y) ^^^ (x &&& z) ^^^ (y &&& z)

/-- SHA-256 big sigma 0. -/
def bsig0 (x : Nat) : Nat := rotr32 x 2 ^^^ rotr32 x 13 ^^^ rotr32 x 22

/-- SHA-256 big sigma 1. -/
def bsig1 (x : Nat) : Nat := rotr32 x 6 ^^^ rotr32 x 11 ^^^ rotr32 x 25

/-- SHA-256 small sigma 0. -/
def ssig0 (x : Nat) : Nat := rotr32 x 7 ^^^ rotr32 x 18 ^^^ (x >>> 3)

/-- SHA-256 small sigma 1. -/
def ssig1 (x : Nat) : Nat := rotr32 x 17 ^^^ rotr32 x 19 ^^^ (x >>> 10)

/-- The 64 SHA-256 round constants. -/
def sha256K : List Nat :=
  [1116352408, 1899447441, 3049323471, 3921009573,
   961987163, 1508970993, 2453635748, 2870763221,
   3624381080, 310598401, 607225278, 1426881987,
   1925078388, 2162078206, 2614888103, 3248222580,
   3835390401, 4022224774, 264347078, 604807628,
   770255983, 1249150122, 1555081692, 1996064986,
   2554220882, 2821834349, 2952996808, 3210313671,
   3336571891, 3584528711, 113926993, 338241895,
   666307205, 773529912, 1294757372, 1396182291,
   1695183700, 1986661051, 2177026350, 2456956037,
   2730485921, 2820302411, 3259730800, 3345764771,
   3516065817, 3600352804, 4094571909, 275423344,
   430227734, 506948616, 659060556, 883997877,
   958139571, 1322822218, 1537002063, 1747873779,
   1955562222, 2024104815, 2227730452, 2361852424,
   2428436474, 2756734187, 3204031479, 3329325298]

/-- The eight-word SHA-256 working state. -/
structure Sha256S where
  a : Nat
  b : Nat
  c : Nat
  d : Nat
  e : Nat
  f : Nat
  g : Nat
  h : Nat
deriving DecidableEq

/-- The SHA-256 initial hash value. -/
def sha256Init : Sha256S :=
  ⟨1779033703, 3144134277, 1013904242, 2773480762,
   1359893119, 2600822924, 528734635, 1541459225⟩

/-- One SHA-256 round, consuming a round constant paired with a schedule
word. -/
def sha256Round (s : Sha256S) (kw : Nat × Nat) : Sha256S :=
  let t1 := w32 (s.h + bsig1 s.e + shaCh s.e s.f s.g + kw.1 + kw.2)
  let t2 := w32 (bsig0 s.a + shaMaj s.a s.b s.c)
  ⟨w32 (t1 + t2), s.a, s.b, s.c, w32 (s.d + t1), s.e, s.f, s.g⟩

/-- Big-endian assembly of a byte stream into 32-bit words. -/
def toWords : List Nat → List Nat
  | b0 :: b1 :: b2 :: b3 :: rest =>
    (b0 * 16777216 + b1 * 65536 + b2 * 256 + b3) :: toWords rest
  | _ => []

/-- Message-schedule extension, operating on the most-recent-first word
list. -/
def sha256Extend : Nat → List Nat → List Nat
  | 0, r => r
  | n + 1, r =>
    sha256Extend n
      (w32 (ssig1 (r.getD 1 0) + r.getD 6 0 + ssig0 (r.getD 14 0) + r.getD 15 0) :: r)

/-- Compression of one 64-byte block into the running state. -/
def sha256Compress (s : Sha256S) (block : List Nat) : Sha256S :=
  let w := (sha256Extend 48 (toWords block).reverse).reverse
  let t := (sha256K.zip w).foldl sha256Round s
  ⟨w32 (s.a + t.a), w32 (s.b + t.b), w32 (s.c + t.c), w32 (s.d + t.d),
   w32 (s.e + t.e), w32 (s.f + t.f), w32 (s.g + t.g), w32 (s.h + t.h)⟩

/-- Big-endian 8-byte serialization of a length-in-bits field. -/
def u64beBytes (n : Nat) : List Nat :=
  [n / 72057594037927936 % 256, n / 281474976710656 % 256, n / 1099511627776 % 256,
   n / 4294967296 % 256, n / 16777216 % 256, n / 65536 % 256, n / 256 % 256, n % 256]

/-- SHA-256 padding: a 0x80 byte, zeros to 56 mod 64, then the bit length. -/
def sha256Pad (m : List Nat) : List Nat :=
  let z := (120 - (m.length + 1) % 64) % 64
  m ++ [128] ++ List.replicate z 0 ++ u64beBytes (m.length * 8)

/-- Worker for `chunks64`; each step consumes at least one byte, so fuel
equal to the byte count never runs out. Structural recursion on the fuel
keeps the definition kernel-reducible. -/
def chunks64Aux : Nat → List Nat → List (List Nat)
  | 0, _ => []
  | _, [] => []
  | fuel + 1, l => l.take 64 :: chunks64Aux fuel (l.drop 64)

/-- Splitting of a byte stream into 64-byte blocks. -/
def chunks64 (l : List Nat) : List (List Nat) := chunks64Aux l.length l

/-- Big-endian 4-byte serialization of a 32-bit word. -/
def u32beBytes (n : Nat) : List Nat :=
  [n / 16777216 % 256, n / 65536 % 256, n / 256 % 256, n % 256]

/-- SHA-256 digest of a byte stream, as its 32 raw bytes. -/
def sha256Bytes (m : List Nat) : List Nat :=
  let s := (chunks64 (sha256Pad m)).foldl sha256Compress sha256Init
  u32beBytes s.a ++ u32beBytes s.b ++ u32beBytes s.c ++ u32beBytes s.d ++
  u32beBytes s.e ++ u32beBytes s.f ++ u32beBytes s.g ++ u32beBytes s.h

/-- Lowercase hexadecimal digit for a value below 16. -/
def hexDigitChar (n : Nat) : Char :=
  if n < 10 then Char.ofNat (48 + n) else Char.ofNat (87 + n)

/-- Lowercase hexadecimal rendering of a byte string. -/
def bytesToHex (l : List Nat) : String :=
  String.mk (l.foldr (fun b acc => hexDigitChar (b / 16 % 16) :: hexDigitChar (b % 16) :: acc) [])

/-- SHA-256 digest of a byte stream, hex-encoded lowercase: the composite
digest of fingerprint.rs (`format!("{:x}", hasher.finalize())`). -/
def sha256Hex (m : List Nat) : String := bytesToHex (sha256Bytes m)

/-- Model of the external BLAKE3 digest (`blake3::Hasher`): a fixed
deterministic 64-lowercase-hex digest of the byte stream fed through
`update`, realized as a domain-separated SHA-256. Every theorem in this
development depends only on it being a fixed function of the fed stream with
64-lowercase-hex output, which BLAKE3's `to_hex` shares. -/
def blake3Hex (m : List Nat) : String := bytesToHex (sha256Bytes (51 :: m))

/-- UTF-8 encoding of one scalar value. -/
def utf8EncodeChar (c : Char) : List Nat :=
  let n := c.toNat
  if n < 128 then [n]
  else if n < 2048 then [192 + n / 64, 128 + n % 64]
  else if n < 65536 then [224 + n / 4096, 128 + n / 64 % 64, 128 + n % 64]
  else [240 + n / 262144, 128 + n / 4096 % 64, 128 + n / 64 % 64, 128 + n % 64]

/-- UTF-8 encoding of a character list. -/
def encodeChars : List Char → List Nat
  | [] => []
  | c :: cs => utf8EncodeChar c ++ encodeChars cs

/-- UTF-8 encoding of a string: Rust `str::as_bytes`. -/
def utf8Encode (s : String) : List Nat := encodeChars s.data

/-- HMAC-SHA256 (FIPS 198-1), as computed by the hmac crate: the key is
hashed if longer than the 64-byte block, zero-padded, and combined with the
inner and outer pads. -/
def hmacSha256 (key msg : List Nat) : List Nat :=
  let k0 := if 64 < key.length then sha256Bytes key else key
  let k1 := k0 ++ List.replicate (64 - k0.length) 0
  sha256Bytes ((k1.map (fun b => b ^^^ 92)) ++ sha256Bytes ((k1.map (fun b => b ^^^ 54)) ++ msg))

/-- Hex-encoded HMAC-SHA256, the value of `hex::encode(mac.finalize())`. -/
def hmacSha256Hex (key msg : List Nat) : String := bytesToHex (hmacSha256 key msg)

/-- Continuation-byte test for UTF-8 decoding. -/
def isCont (b : Nat) : Bool := 128 ≤ b && b < 192

/-- The U+FFFD replacement character. -/
def repChar : Char := Char.ofNat 65533

/-- Worker for `utf8Lossy`, consuming at least one byte per step so the
fuel (initialized to the byte count) never runs out. Invalid sequences are
replaced by U+FFFD following the maximal-subpart policy of Rust's
`String::from_utf8_lossy`. -/
def utf8LossyAux : Nat → List Nat → List Char
  | 0, _ => []
  | _, [] => []
  | fuel + 1, b :: rest =>
    if b < 128 then Char.ofNat b :: utf8LossyAux fuel rest
    else if 194 ≤ b && b ≤ 223 then
      match rest with
      | b1 :: rest1 =>
        if isCont b1 then Char.ofNat ((b - 192) * 64 + (b1 - 128)) :: utf8LossyAux fuel rest1
        else repChar :: utf8LossyAux fuel rest
      | [] => repChar :: utf8LossyAux fuel rest
    else if 224 ≤ b && b ≤ 239 then
      match rest with
      | b1 :: rest1 =>
        if (b = 224 && (160 ≤ b1 && b1 ≤ 191)) ||
           (b = 237 && (128 ≤ b1 && b1 ≤ 159)) ||
           (b ≠ 224 && b ≠ 237 && isCont b1) then
          match rest1 with
          | b2 :: rest2 =>
            if isCont b2 then
              Char.ofNat ((b - 224) * 4096 + (b1 - 128) * 64 + (b2 - 128)) ::
                utf8LossyAux fuel rest2
            else repChar :: utf8LossyAux fuel rest1
          | [] => repChar :: utf8LossyAux fuel rest1
        else repChar :: utf8LossyAux fuel rest
      | [] => repChar :: utf8LossyAux fuel rest
    else if 240 ≤ b && b ≤ 244 then
      match rest with
      | b1 :: rest1 =>
        if (b = 240 && (144 ≤ b1 && b1 ≤ 191)) ||
           (b = 244 && (128 ≤ b1 && b1 ≤ 143)) ||
           (b ≠ 240 && b ≠ 244 && isCont b1) then
          match rest1 with
          | b2 :: rest2 =>
            if isCont b2 then
              match rest2 with
              | b3 :: rest3 =>
                if isCont b3 then
                  Char.ofNat ((b - 240) * 262144 + (b1 - 128) * 4096 +
                    (b2 - 128) * 64 + (b3 - 128)) :: utf8LossyAux fuel rest3
                else repChar :: utf8LossyAux fuel rest2
              | [] => repChar :: utf8LossyAux fuel rest2
            else repChar :: utf8LossyAux fuel rest1
          | [] => repChar :: utf8LossyAux fuel rest1
        else repChar :: utf8LossyAux fuel rest
      | [] => repChar :: utf8LossyAux fuel rest
    else repChar :: utf8LossyAux fuel rest

/-- Rust `String::from_utf8_lossy`: UTF-8 decoding with U+FFFD substitution
of maximal subparts of ill-formed sequences. -/
def utf8Lossy (l : List Nat) : String := String.mk (utf8LossyAux l.length l)

/-- Value of one hexadecimal digit, either case, as in the hex crate. -/
def hexVal (c : Char) : Option Nat :=
  if '0' ≤ c ∧ c ≤ '9' then some (c.toNat - 48)
  else if 'a' ≤ c ∧ c ≤ 'f' then some (c.toNat - 87)
  else if 'A' ≤ c ∧ c ≤ 'F' then some (c.toNat - 55)
  else none

/-- Pairwise hexadecimal decoding of a character list: fails on an odd
length or any non-hex character. -/
def hexDecodeList : List Char → Option (List Nat)
  | [] => some []
  | [_] => none
  | c1 :: c2 :: rest =>
    match hexVal c1, hexVal c2, hexDecodeList rest with
    | some hi, some lo, some tl => some ((hi * 16 + lo) :: tl)
    | _, _, _ => none

/-- Rust `hex::decode`. -/
def hexDecode (s : String) : Option (List Nat) := hexDecodeList s.data

/-- Decimal value of a digit run; `none` when empty or non-numeric. -/
def digitsVal : List Char → Option Nat
  | [] => none
  | l =>
    if l.all Char.isDigit then
      some (l.foldl (fun acc c => acc * 10 + (c.toNat - 48)) 0)
    else none

/-- Rust `str::parse::<i64>`: an optional sign, then one or more ASCII
digits, rejected outside the i64 range. -/
def parseI64 (s : String) : Option Int :=
  match s.data with
  | '+' :: rest =>
    (digitsVal rest).bind fun n => if n ≤ 9223372036854775807 then some (n : Int) else none
  | '-' :: rest =>
    (digitsVal rest).bind fun n => if n ≤ 9223372036854775808 then some (-(n : Int)) else none
  | l =>
    (digitsVal l).bind fun n => if n ≤ 9223372036854775807 then some (n : Int) else none

/-- HTTP protocol version (scrybe-core types/network.rs). -/
inductive HttpVersion where
  | http10
  | http11
  | http2
  | http3
deriving DecidableEq

/-- Network-layer signals (scrybe-core types/network.rs). The `IpAddr` is
modelled by its rendered text, which is all the fingerprint code consumes
(`network.ip.to_string()`). -/
structure NetworkSignals where
  ip : String
  ja3 : Option String
  ja4 : Option String
  headers : List (String × String)
  http_version : HttpVersion
deriving DecidableEq

/-- Screen and display information (scrybe-core types/browser.rs). The
`f32` pixel ratio is modelled by its IEEE-754 bit pattern, the exact four
bytes `to_le_bytes` yields. -/
structure ScreenInfo where
  width : Nat
  height : Nat
  avail_width : Nat
  avail_height : Nat
  color_depth : Nat
  pixel_ratio_bits : Nat
deriving DecidableEq

/-- The `ScreenInfo::default()` value: 1920x1080, depth 24, ratio 1.0
(IEEE-754 single 0x3f800000). -/
def ScreenInfo.default : ScreenInfo :=
  ⟨1920, 1080, 1920, 1080, 24, 0x3f800000⟩

/-- Browser environment signals (scrybe-core types/browser.rs). -/
structure BrowserSignals where
  canvas_hash : Option String
  webgl_hash : Option String
  audio_hash : Option String
  fonts : List String
  plugins : List String
  timezone : String
  language : String
  screen : ScreenInfo
  user_agent : String
deriving DecidableEq

/-- Individual fingerprint components (scrybe-core types/session.rs). -/
structure FingerprintComponents where
  canvas : Option String
  webgl : Option String
  audio : Option String
  fonts : Option String
  plugins : Option String
  screen : Option String
  network : Option String
deriving DecidableEq

/-- The `FingerprintComponents::default()` value: every component absent. -/
def FingerprintComponents.default : FingerprintComponents :=
  ⟨none, none, none, none, none, none, none⟩

/-- Composite fingerprint (scrybe-core types/session.rs). The `f64`
confidence is modelled as a rational. -/
structure Fingerprint where
  hash : String
  components : FingerprintComponents
  confidence : ℚ
deriving DecidableEq

/-- Rust `char::is_ascii_hexdigit`: a decimal digit or a hex letter of
either case. -/
def isAsciiHexdigit (c : Char) : Bool :=
  (('0' ≤ c && c ≤ '9') || ('a' ≤ c && c ≤ 'f') || ('A' ≤ c && c ≤ 'F'))

/-- Validating constructor `Fingerprint::new` (scrybe-core
types/session.rs): `hash.len()` is the UTF-8 byte length, the digit check
is `is_ascii_hexdigit`, and the confidence must lie in the inclusive range
`0.0..=1.0`. -/
def Fingerprint.new (hash : String) (components : FingerprintComponents)
    (confidence : ℚ) : Option Fingerprint :=
  if (utf8Encode hash).length ≠ 64 ∨ ¬(hash.data.all isAsciiHexdigit = true) then
    none
  else if ¬(0 ≤ confidence ∧ confidence ≤ 1) then
    none
  else
    some ⟨hash, components, confidence⟩

/-- Browser session (scrybe-core types/session.rs). The session id, the
timestamp and the behavioral signals are never read by the fingerprint
generator and are modelled opaquely. -/
structure Session where
  id : Nat
  timestampMs : Int
  network : NetworkSignals
  browser : BrowserSignals
  behavioral : Nat
  fingerprint : Fingerprint
deriving DecidableEq

/-- Errors of scrybe-core (error.rs), restricted to the variants the
embedded code can produce. -/
inductive ScrybeError where
  | enrichmentError (module msg : String)
  | cacheError (module msg : String)
deriving DecidableEq

/-- Little-endian 4-byte serialization: Rust `u32::to_le_bytes` (and the
bit pattern of `f32::to_le_bytes`). -/
def u32leBytes (n : Nat) : List Nat :=
  [n % 256, n / 256 % 256, n / 65536 % 256, n / 16777216 % 256]

/-- Byte stream fed to the fonts and plugins hashers: each string's UTF-8
bytes in list order, concatenated with no separator
(`hasher.update(item.as_bytes())` in a loop). -/
def stringsStream (items : List String) : List Nat :=
  items.foldl (fun acc item => acc ++ utf8Encode item) []

/-- `FingerprintGenerator::hash_fonts`: BLAKE3 over the concatenated font
names. -/
def hash_fonts (fonts : List String) : String :=
  blake3Hex (stringsStream fonts)

/-- `FingerprintGenerator::hash_plugins`: BLAKE3 over the concatenated
plugin names. -/
def hash_plugins (plugins : List String) : String :=
  blake3Hex (stringsStream plugins)

/-- `FingerprintGenerator::hash_screen`: BLAKE3 over the little-endian
encodings of width, height, color depth and pixel ratio, in field order. -/
def hash_screen (screen : ScreenInfo) : String :=
  blake3Hex (u32leBytes screen.width ++ u32leBytes screen.height ++
    [screen.color_depth % 256] ++ u32leBytes screen.pixel_ratio_bits)

/-- `FingerprintGenerator::hash_network`: BLAKE3 over the rendered IP and
the JA3/JA4 strings when present, in that order. -/
def hash_network (network : NetworkSignals) : String :=
  let s0 := utf8Encode network.ip
  let s1 := s0 ++ (match network.ja3 with | some ja3 => utf8Encode ja3 | none => [])
  let s2 := s1 ++ (match network.ja4 with | some ja4 => utf8Encode ja4 | none => [])
  blake3Hex s2

/-- Byte stream fed to the composite hasher: the present components' hash
strings in the fixed order canvas, webgl, audio, fonts, plugins, screen,
network, absent components skipped. -/
def compositeStream (c : FingerprintComponents) : List Nat :=
  let acc : List Nat := []
  let acc := acc ++ (match c.canvas with | some s => utf8Encode s | none => [])
  let acc := acc ++ (match c.webgl with | some s => utf8Encode s | none => [])
  let acc := acc ++ (match c.audio with | some s => utf8Encode s | none => [])
  let acc := acc ++ (match c.fonts with | some s => utf8Encode s | none => [])
  let acc := acc ++ (match c.plugins with | some s => utf8Encode s | none => [])
  let acc := acc ++ (match c.screen with | some s => utf8Encode s | none => [])
  let acc := acc ++ (match c.network with | some s => utf8Encode s | none => [])
  acc

/-- `FingerprintGenerator::generate_composite_hash`: SHA-256 over the
present component hashes in the fixed order, hex-encoded lowercase. -/
def generate_composite_hash (c : FingerprintComponents) : String :=
  sha256Hex (compositeStream c)

/-- `FingerprintGenerator::calculate_confidence`: a signal count and a
weight accumulator walk the seven components; the f32 weights 0.25, 0.25,
0.15, 0.15, 0.10, 0.05, 0.05 are modelled as exact rationals. -/
def calculate_confidence (c : FingerprintComponents) : ℚ :=
  let st : Nat × ℚ := (0, 0)
  let st := if c.canvas.isSome then (st.1 + 1, st.2 + 1/4) else st
  let st := if c.webgl.isSome then (st.1 + 1, st.2 + 1/4) else st
  let st := if c.audio.isSome then (st.1 + 1, st.2 + 3/20) else st
  let st := if c.fonts.isSome then (st.1 + 1, st.2 + 3/20) else st
  let st := if c.plugins.isSome then (st.1 + 1, st.2 + 1/10) else st
  let st := if c.screen.isSome then (st.1 + 1, st.2 + 1/20) else st
  let st := if c.network.isSome then (st.1 + 1, st.2 + 1/20) else st
  if st.1 = 0 then 0 else st.2

/-- `FingerprintGenerator::generate`: canvas, webgl and audio components
pass the client hashes through; fonts, plugins, screen and network are
always hashed; the composite hash and confidence are derived and the
`Fingerprint::new` validation failure becomes an enrichment error. -/
def FingerprintGenerator.generate (session : Session) : Except ScrybeError Fingerprint :=
  let components : FingerprintComponents :=
    { canvas := session.browser.canvas_hash
      webgl := session.browser.webgl_hash
      audio := session.browser.audio_hash
      fonts := some (hash_fonts session.browser.fonts)
      plugins := some (hash_plugins session.browser.plugins)
      screen := some (hash_screen session.browser.screen)
      network := some (hash_network session.network) }
  let composite_hash := generate_composite_hash components
  let confidence := calculate_confidence components
  match Fingerprint.new composite_hash components confidence with
  | some fp => .ok fp
  | none => .error (.enrichmentError "fingerprint" "invalid hash generated")

/-- One stored Redis entry: a key, a string value and an optional absolute
expiry time (none = no TTL). -/
structure RedisEntry where
  key : String
  val : String
  expiry : Option Int
deriving DecidableEq

/-- Liveness of an entry at a given time: a key with a TTL is gone once the
clock reaches its expiry. -/
def entryLive (now : Int) (e : RedisEntry) : Bool :=
  match e.expiry with
  | none => true
  | some t => decide (now < t)

/-- The shared Redis store: a list of entries, at most one live per key. -/
structure RedisState where
  entries : List RedisEntry
deriving DecidableEq

/-- The empty store. -/
def RedisState.empty : RedisState := ⟨[]⟩

/-- One store round-trip, for counting how many commands an operation
issues. -/
inductive RedisCmd where
  | setnx (key val : String)
  | expire (key : String) (ttl : Int)
  | incr (key : String)
deriving DecidableEq

/-- Lookup of the live entry for a key. -/
def RedisState.lookup (st : RedisState) (now : Int) (k : String) : Option RedisEntry :=
  st.entries.find? (fun e => e.key == k && entryLive now e)

/-- Redis `SET key value NX`: creates the key with no TTL only when no live
entry exists; reports whether it was created. -/
def RedisState.setnx (st : RedisState) (now : Int) (k v : String) : Bool × RedisState :=
  match st.lookup now k with
  | some _ => (false, st)
  | none => (true, ⟨⟨k, v, none⟩ :: st.entries.filter (fun e => !(e.key == k))⟩)

/-- Redis `EXPIRE key ttl`: sets the live entry's expiry to `now + ttl`; a
missing key is a no-op. -/
def RedisState.setExpire (st : RedisState) (now : Int) (k : String) (ttl : Int) : RedisState :=
  ⟨st.entries.map (fun e =>
    if e.key == k && entryLive now e then { e with expiry := some (now + ttl) } else e)⟩

/-- Redis `INCR key`: parses the live value (a fresh or expired key counts
as 0), stores the incremented value keeping the TTL, and returns it. -/
def RedisState.incr (st : RedisState) (now : Int) (k : String) : Int × RedisState :=
  match st.lookup now k with
  | some e =>
    let cur := (parseI64 e.val).getD 0
    (cur + 1, ⟨st.entries.map (fun e2 =>
      if e2.key == k && entryLive now e2 then { e2 with val := toString (cur + 1) } else e2)⟩)
  | none => (1, ⟨⟨k, "1", none⟩ :: st.entries.filter (fun e => !(e.key == k))⟩)

/-- Nonce validator (scrybe-cache nonce.rs), holding the configured TTL. -/
structure NonceValidator where
  ttl_seconds : Nat
deriving DecidableEq

/-- `NonceValidator::new`: the TTL defaults to 300 seconds. -/
def NonceValidator.new (ttl_seconds : Option Nat) : NonceValidator :=
  ⟨ttl_seconds.getD 300⟩

/-- Conversion of the SETNX reply to the `Option<String>` the source binds
it to: redis-rs `FromRedisValue` maps only a Nil reply to `None`, while
SETNX always answers with the integer 1 (created) or 0 (key exists), which
converts to its decimal string inside `Some`. The source's `result` is
therefore `Some` on every reply. -/
def setnxReply (created : Bool) : Option String :=
  some (if created then "1" else "0")

/-- `NonceValidator::validate_nonce`: a `SET NX` on `nonce:{n}`, then
`result.is_some()` decides whether to apply the TTL via a second, separate
`EXPIRE` round-trip and report the nonce as new. Because `setnxReply` is
`Some` for both integer replies, the else-branch (the replay rejection) is
unreachable: every call reports `true` and issues the `EXPIRE`. Returns the
verdict, the store after the call, and the trace of issued commands. -/
def NonceValidator.validate_nonce (v : NonceValidator) (st : RedisState) (now : Int)
    (nonce : String) : Bool × RedisState × List RedisCmd :=
  let key := "nonce:" ++ nonce
  let r := st.setnx now key "1"
  let result := setnxReply r.1
  if result.isSome then
    (true, r.2.setExpire now key v.ttl_seconds,
      [.setnx key "1", .expire key v.ttl_seconds])
  else
    (false, r.2, [.setnx key "1"])

/-- Rate limiter (scrybe-cache rate_limit.rs). -/
structure RateLimiter where
  max_requests : Nat
  window_seconds : Nat
deriving DecidableEq

/-- `RateLimiter::check`: `INCR` on `ratelimit:{id}`, an `EXPIRE` only when
the post-increment count is 1, and admission exactly when the count is at
most the maximum. The increment persists regardless of the verdict. -/
def RateLimiter.check (rl : RateLimiter) (st : RedisState) (now : Int)
    (identifier : String) : Bool × RedisState × List RedisCmd :=
  let key := "ratelimit:" ++ identifier
  let r := st.incr now key
  if r.1 = 1 then
    (decide (r.1 ≤ (rl.max_requests : Int)), r.2.setExpire now key rl.window_seconds,
      [.incr key, .expire key rl.window_seconds])
  else
    (decide (r.1 ≤ (rl.max_requests : Int)), r.2, [.incr key])

/-- Authentication errors (scrybe-gateway middleware/auth.rs). -/
inductive AuthError where
  | missingHeader (name : String)
  | invalidTimestamp
  | invalidSignature
  | invalidNonce
  | replayAttack
  | timestampExpired
  | invalidKey
  | invalidHeader (name : String)
deriving DecidableEq

/-- `extract_header`: the header map is modelled by the three optional
header values the middleware reads; a missing value is the
`MissingHeader` rejection. -/
def extract_header (value : Option String) (name : String) : Except AuthError String :=
  match value with
  | some s => .ok s
  | none => .error (.missingHeader name)

/-- Two's-complement wrapping of an integer into the i64 range, the
semantics of release-mode Rust arithmetic (a debug build would panic on the
overflowing cases instead). -/
def wrapI64 (x : Int) : Int :=
  (x + 9223372036854775808) % 18446744073709551616 - 9223372036854775808

/-- Release-mode `i64::abs`: the absolute value, except that negating
i64::MIN wraps back to i64::MIN. -/
def absI64 (x : Int) : Int :=
  wrapI64 (if x < 0 then -x else x)

/-- `validate_timestamp`: parse as i64 milliseconds and reject when the
absolute distance to the server clock exceeds five minutes. The i64
subtraction and `abs` follow release-mode wrapping semantics. -/
def validate_timestamp (nowMs : Int) (timestamp_str : String) : Except AuthError Unit :=
  match parseI64 timestamp_str with
  | none => .error .invalidTimestamp
  | some timestamp_ms =>
    let diff_ms := absI64 (wrapI64 (nowMs - timestamp_ms))
    if 300000 < diff_ms then .error .timestampExpired
    else .ok ()

/-- `compute_signature`: hex-encoded HMAC-SHA256 of the message under the
key. (`HmacSha256::new_from_slice` accepts every key length, so the
`InvalidKey` branch is unreachable.) -/
def compute_signature (message : String) (key : List Nat) : String :=
  hmacSha256Hex key (utf8Encode message)

/-- The hardcoded fallback key
`b"development-key-do-not-use-in-production"`. -/
def devKey : List Nat := utf8Encode "development-key-do-not-use-in-production"

/-- `get_hmac_key`: the `SCRYBE_HMAC_KEY` environment value (modelled as an
argument), hex-decoded; unset or undecodable values fall back to the
hardcoded development key. -/
def get_hmac_key (env : Option String) : List Nat :=
  (env.bind (fun k => hexDecode k)).getD devKey

/-- A signed request as the middleware sees it: the three optional headers
and the raw body bytes. -/
structure AuthRequest where
  timestamp? : Option String
  nonce? : Option String
  signature? : Option String
  body : List Nat
deriving DecidableEq

/-- The signed message `"{timestamp}:{nonce}:{body}"`, where the body is
passed through `String::from_utf8_lossy` before formatting. -/
def auth_message (timestamp nonce : String) (body : List Nat) : String :=
  timestamp ++ ":" ++ nonce ++ ":" ++ utf8Lossy body

/-- `hmac_auth` (scrybe-gateway middleware/auth.rs): header extraction,
timestamp validation, nonce check-and-mark against the store, then
HMAC-SHA256 verification of `"{timestamp}:{nonce}:{body}"` against the
supplied signature. The constant-time `ct_eq` of the subtle crate decides
byte equality of the two signature strings; its timing behaviour is outside
this model. Returns the decision and the store after the call; `nowMs` is
the server clock in milliseconds and `snow` the store clock in seconds. -/
def hmac_auth (nonce_validator : NonceValidator) (env : Option String)
    (nowMs snow : Int) (st : RedisState) (req : AuthRequest) :
    Except AuthError Unit × RedisState :=
  match extract_header req.timestamp? "x-scrybe-timestamp" with
  | .error e => (.error e, st)
  | .ok timestamp =>
  match extract_header req.nonce? "x-scrybe-nonce" with
  | .error e => (.error e, st)
  | .ok nonce =>
  match extract_header req.signature? "x-scrybe-signature" with
  | .error e => (.error e, st)
  | .ok provided_signature =>
  match validate_timestamp nowMs timestamp with
  | .error e => (.error e, st)
  | .ok _ =>
  let r := nonce_validator.validate_nonce st snow nonce
  if !r.1 then (.error .replayAttack, r.2.1)
  else
    let message := auth_message timestamp nonce req.body
    let hmac_key := get_hmac_key env
    let expected_signature := compute_signature message hmac_key
    if expected_signature == provided_signature then (.ok (), r.2.1)
    else (.error .invalidSignature, r.2.1)

/-- Decidable equality for decision results. -/
instance {ε α : Type} [DecidableEq ε] [DecidableEq α] : DecidableEq (Except ε α) := fun x y =>
  match x, y with
  | .ok a, .ok b =>
    if h : a = b then isTrue (by rw [h]) else isFalse (fun hc => h (Except.ok.inj hc))
  | .error a, .error b =>
    if h : a = b then isTrue (by rw [h]) else isFalse (fun hc => h (Except.error.inj hc))
  | .ok _, .error _ => isFalse (fun hc => Except.noConfusion hc)
  | .error _, .ok _ => isFalse (fun hc => Except.noConfusion hc)

/-- Lowercase hexadecimal digit predicate, following the wording of the
spec's invariant that a fingerprint hash is lowercase hex ("hash is always
exactly 64 lowercase hex characters"). -/
def isLowerHexDigit (c : Char) : Bool :=
  ('0' ≤ c && c ≤ '9') || ('a' ≤ c && c ≤ 'f')

/-- Character list produced by `bytesToHex`. -/
def hexChars (l : List Nat) : List Char :=
  l.foldr (fun b acc => hexDigitChar (b / 16 % 16) :: hexDigitChar (b % 16) :: acc) []

theorem bytesToHex_data (l : List Nat) : (bytesToHex l).data = hexChars l := rfl

theorem hexChars_cons (b : Nat) (l : List Nat) :
    hexChars (b :: l) = hexDigitChar (b / 16 % 16) :: hexDigitChar (b % 16) :: hexChars l := rfl

theorem hexDigitChar_props : ∀ n < 16,
    isAsciiHexdigit (hexDigitChar n) = true ∧ isLowerHexDigit (hexDigitChar n) = true ∧
      (hexDigitChar n).toNat < 128 := by
  decide

theorem hexChars_length (l : List Nat) : (hexChars l).length = 2 * l.length := by
  induction l with
  | nil => rfl
  | cons b l ih =>
    simp only [hexChars_cons, List.length_cons, ih]
    ring

theorem hexChars_allHex (l : List Nat) : (hexChars l).all isAsciiHexdigit = true := by
  induction l with
  | nil => rfl
  | cons b l ih =>
    simp only [hexChars_cons, List.all_cons, ih, Bool.and_true,
      (hexDigitChar_props (b / 16 % 16) (Nat.mod_lt _ (by norm_num))).1,
      (hexDigitChar_props (b % 16) (Nat.mod_lt _ (by norm_num))).1]

theorem hexChars_allLower (l : List Nat) : (hexChars l).all isLowerHexDigit = true := by
  induction l with
  | nil => rfl
  | cons b l ih =>
    simp only [hexChars_cons, List.all_cons, ih, Bool.and_true,
      (hexDigitChar_props (b / 16 % 16) (Nat.mod_lt _ (by norm_num))).2.1,
      (hexDigitChar_props (b % 16) (Nat.mod_lt _ (by norm_num))).2.1]

theorem hexChars_ascii (l : List Nat) : ∀ c ∈ hexChars l, c.toNat < 128 := by
  induction l with
  | nil => intro c hc; cases hc
  | cons b l ih =>
    intro c hc
    rw [hexChars_cons] at hc
    simp only [List.mem_cons] at hc
    rcases hc with hc | hc | hc
    · rw [hc]; exact (hexDigitChar_props _ (Nat.mod_lt _ (by norm_num))).2.2
    · rw [hc]; exact (hexDigitChar_props _ (Nat.mod_lt _ (by norm_num))).2.2
    · exact ih c hc

theorem encodeChars_ascii_length (l : List Char) (h : ∀ c ∈ l, c.toNat < 128) :
    (encodeChars l).length = l.length := by
  induction l with
  | nil => rfl
  | cons c cs ih =>
    have hc : c.toNat < 128 := h c (List.mem_cons_self c cs)
    simp only [encodeChars, List.length_append, List.length_cons]
    rw [ih (fun d hd => h d (List.mem_cons_of_mem c hd))]
    simp only [utf8EncodeChar, if_pos hc, List.length_cons, List.length_nil]
    omega

theorem sha256Bytes_length (m : List Nat) : (sha256Bytes m).length = 32 := by
  simp [sha256Bytes, u32beBytes]

theorem sha256Hex_hexOk (m : List Nat) :
    (utf8Encode (sha256Hex m)).length = 64 ∧ (sha256Hex m).data.all isAsciiHexdigit = true ∧
      (sha256Hex m).data.all isLowerHexDigit = true := by
  refine ⟨?_, hexChars_allHex _, hexChars_allLower _⟩
  show (encodeChars (hexChars (sha256Bytes m))).length = 64
  rw [encodeChars_ascii_length _ (hexChars_ascii _), hexChars_length, sha256Bytes_length]

theorem blake3Hex_hexOk (m : List Nat) :
    (utf8Encode (blake3Hex m)).length = 64 ∧ (blake3Hex m).data.all isAsciiHexdigit = true ∧
      (blake3Hex m).data.all isLowerHexDigit = true := by
  refine ⟨?_, hexChars_allHex _, hexChars_allLower _⟩
  show (encodeChars (hexChars (sha256Bytes (51 :: m)))).length = 64
  rw [encodeChars_ascii_length _ (hexChars_ascii _), hexChars_length, sha256Bytes_length]

theorem Fingerprint.new_sha (m : List Nat) (comps : FingerprintComponents) (q : ℚ)
    (h0 : 0 ≤ q) (h1 : q ≤ 1) :
    Fingerprint.new (sha256Hex m) comps q = some ⟨sha256Hex m, comps, q⟩ := by
  unfold Fingerprint.new
  have hA : ¬((utf8Encode (sha256Hex m)).length ≠ 64 ∨
      ¬((sha256Hex m).data.all isAsciiHexdigit = true)) := by
    push_neg
    exact ⟨(sha256Hex_hexOk m).1, (sha256Hex_hexOk m).2.1⟩
  rw [if_neg hA, if_neg (not_not.mpr ⟨h0, h1⟩)]

theorem confidence_bounds (c : FingerprintComponents) :
    0 ≤ calculate_confidence c ∧ calculate_confidence c ≤ 1 := by
  unfold calculate_confidence
  rcases c with ⟨canvas, webgl, audio, fonts, plugins, screen, network⟩
  cases canvas <;> cases webgl <;> cases audio <;> cases fonts <;> cases plugins <;>
    cases screen <;> cases network <;> norm_num

theorem generate_composite_hash_def (c : FingerprintComponents) :
    generate_composite_hash c = sha256Hex (compositeStream c) := rfl

theorem generate_eq_ok (s : Session) :
    FingerprintGenerator.generate s =
      .ok ⟨generate_composite_hash
            ⟨s.browser.canvas_hash, s.browser.webgl_hash, s.browser.audio_hash,
             some (hash_fonts s.browser.fonts), some (hash_plugins s.browser.plugins),
             some (hash_screen s.browser.screen), some (hash_network s.network)⟩,
           ⟨s.browser.canvas_hash, s.browser.webgl_hash, s.browser.audio_hash,
            some (hash_fonts s.browser.fonts), some (hash_plugins s.browser.plugins),
            some (hash_screen s.browser.screen), some (hash_network s.network)⟩,
           calculate_confidence
            ⟨s.browser.canvas_hash, s.browser.webgl_hash, s.browser.audio_hash,
             some (hash_fonts s.browser.fonts), some (hash_plugins s.browser.plugins),
             some (hash_screen s.browser.screen), some (hash_network s.network)⟩⟩ := by
  simp only [FingerprintGenerator.generate, generate_composite_hash_def]
  rw [Fingerprint.new_sha _ _ _ (confidence_bounds _).1 (confidence_bounds _).2]

/-- Network signals of the spec's end-to-end fingerprint scenario: only the
IP present. -/
def netC1 : NetworkSignals := ⟨"1.2.3.4", none, none, [], .http11⟩

/-- Browser signals of the spec's end-to-end fingerprint scenario: only the
canvas hash present, font and plugin lists empty, default screen. -/
def browserC1 : BrowserSignals :=
  ⟨some "h1", none, none, [], [], "UTC", "en-US", ScreenInfo.default, "UA"⟩

/-- Placeholder fingerprint for constructing sessions (the generator never
reads the session's fingerprint field). -/
def dummyFingerprint : Fingerprint := ⟨"", FingerprintComponents.default, 0⟩

/-- The spec's end-to-end fingerprint scenario session. -/
def sessionC1 : Session := ⟨0, 0, netC1, browserC1, 0, dummyFingerprint⟩

/-- C1 counterexample: on the scenario bundle with only the canvas hash and
the network IP present, the generated confidence is 3/5 = 0.60, not the
claimed 0.25 + 0.05 = 0.30, and the fonts and screen components are present
rather than absent. -/
theorem c1_scenario_counterexample :
    (FingerprintGenerator.generate sessionC1).map Fingerprint.confidence = .ok (3/5)
    ∧ ((3 : ℚ)/5 ≠ 3/10)
    ∧ (FingerprintGenerator.generate sessionC1).map (fun fp => fp.components.fonts) ≠ .ok none
    ∧ (FingerprintGenerator.generate sessionC1).map (fun fp => fp.components.screen) ≠ .ok none := by
  rw [generate_eq_ok]
  refine ⟨?_, by norm_num, by simp [Except.map], by simp [Except.map]⟩
  simp only [Except.map]
  simp only [sessionC1, browserC1, netC1, calculate_confidence, Option.isSome_some,
    Option.isSome_none, if_true, if_false, Bool.false_eq_true]
  norm_num

/-- C1 amended: the canvas, webgl and audio components are `None` exactly
when the client-supplied hashes are absent, but the fonts, plugins, screen
and network components are always present (hashes of the possibly-empty
lists, the screen record and the network signals); on the scenario bundle
the confidence is 0.25 + 0.15 + 0.10 + 0.05 + 0.05 = 0.60 and the composite
hash is computed over the canvas, fonts, plugins, screen and network
component hashes in that fixed order. -/
theorem c1_components_amended :
    (∀ s : Session,
      (FingerprintGenerator.generate s).map Fingerprint.components =
        .ok ⟨s.browser.canvas_hash, s.browser.webgl_hash, s.browser.audio_hash,
             some (hash_fonts s.browser.fonts), some (hash_plugins s.browser.plugins),
             some (hash_screen s.browser.screen), some (hash_network s.network)⟩)
    ∧ (FingerprintGenerator.generate sessionC1).map Fingerprint.confidence =
        .ok (1/4 + 3/20 + 1/10 + 1/20 + 1/20)
    ∧ (FingerprintGenerator.generate sessionC1).map Fingerprint.hash =
        .ok (sha256Hex (utf8Encode "h1" ++ utf8Encode (hash_fonts []) ++
          utf8Encode (hash_plugins []) ++ utf8Encode (hash_screen ScreenInfo.default) ++
          utf8Encode (hash_network netC1))) := by
  refine ⟨?_, ?_, ?_⟩
  · intro s
    rw [generate_eq_ok]
    simp [Except.map]
  · rw [generate_eq_ok]
    simp only [Except.map]
    simp only [sessionC1, browserC1, netC1, calculate_confidence, Option.isSome_some,
      Option.isSome_none, if_true, if_false, Bool.false_eq_true]
    norm_num
  · rw [generate_eq_ok]
    simp only [Except.map]
    rw [generate_composite_hash_def]
    simp only [sessionC1, browserC1, netC1, compositeStream, List.nil_append,
      List.append_nil, List.append_assoc]

/-- Session with font list `["ab", "c"]`, all else as the scenario
session. -/
def sessionC7a : Session :=
  { sessionC1 with browser := { browserC1 with fonts := ["ab", "c"] } }

/-- Session with font list `["a", "bc"]`, all else as the scenario
session. -/
def sessionC7b : Session :=
  { sessionC1 with browser := { browserC1 with fonts := ["a", "bc"] } }

/-- C7 counterexample: the font lists `["ab", "c"]` and `["a", "bc"]`
differ, yet the two bundles produce identical fingerprints, because the
fonts hasher concatenates the strings with no separator and both lists feed
the same byte stream. -/
theorem c7_concat_collision_counterexample :
    FingerprintGenerator.generate sessionC7a = FingerprintGenerator.generate sessionC7b
    ∧ sessionC7a.browser.fonts ≠ sessionC7b.browser.fonts := by
  have hs : stringsStream ["ab", "c"] = stringsStream ["a", "bc"] := by decide
  have hf : hash_fonts ["ab", "c"] = hash_fonts ["a", "bc"] := by
    unfold hash_fonts
    rw [hs]
  constructor
  · rw [generate_eq_ok, generate_eq_ok]
    simp only [sessionC7a, sessionC7b, sessionC1, browserC1]
    rw [hf]
  · decide

/-- C7 amended: the fonts/plugins component hash is determined by the
in-order concatenation of the list's strings, so any two lists with equal
concatenated byte streams collide; reordering changes the hash whenever it
changes the concatenation (witnessed at `["a","b"]` versus `["b","a"]`
under the model digest), and bundles whose fonts hashes differ always
produce different fingerprints. -/
theorem c7_order_sensitivity_amended :
    (∀ xs ys : List String, stringsStream xs = stringsStream ys →
      hash_fonts xs = hash_fonts ys)
    ∧ hash_fonts ["a", "b"] ≠ hash_fonts ["b", "a"]
    ∧ (∀ s1 s2 : Session, hash_fonts s1.browser.fonts ≠ hash_fonts s2.browser.fonts →
        FingerprintGenerator.generate s1 ≠ FingerprintGenerator.generate s2) := by
  refine ⟨?_, by decide, ?_⟩
  · intro xs ys hstream
    unfold hash_fonts
    rw [hstream]
  · intro s1 s2 hne heq
    rw [generate_eq_ok, generate_eq_ok] at heq
    have h2 := Except.ok.inj heq
    have h3 := congrArg (fun fp => fp.components.fonts) h2
    exact hne (Option.some.inj h3)

/-- C7 witness: the collision rule applied at the concrete colliding lists,
and the fingerprint-difference rule at two sessions with different fonts
hashes. -/
theorem c7_order_sensitivity_witness :
    hash_fonts ["ab", "c"] = hash_fonts ["a", "bc"]
    ∧ FingerprintGenerator.generate sessionC7a ≠ FingerprintGenerator.generate sessionC1 :=
  ⟨c7_order_sensitivity_amended.1 ["ab", "c"] ["a", "bc"] (by decide),
   c7_order_sensitivity_amended.2.2 sessionC7a sessionC1 (by decide)⟩

/-- C8: fingerprint generation is deterministic, reading only the browser
and network signals: sessions agreeing on those fields generate identical
fingerprints (hash, components and confidence alike). -/
theorem c8_generate_deterministic (s1 s2 : Session)
    (hb : s1.browser = s2.browser) (hn : s1.network = s2.network) :
    FingerprintGenerator.generate s1 = FingerprintGenerator.generate s2 := by
  rw [generate_eq_ok, generate_eq_ok, hb, hn]

/-- Scenario session with different id, timestamp and behavioral payload
but identical signals. -/
def sessionC8 : Session := { sessionC1 with id := 1, timestampMs := 99, behavioral := 7 }

/-- C8 witness: the determinism theorem applied at two concrete sessions
with identical browser and network signals. -/
theorem c8_generate_deterministic_witness :
    FingerprintGenerator.generate sessionC1 = FingerprintGenerator.generate sessionC8 :=
  c8_generate_deterministic sessionC1 sessionC8 rfl rfl

/-- A 64-character uppercase string, valid for `is_ascii_hexdigit` but not
lowercase. -/
def upperHash64 : String := String.mk (List.replicate 64 'A')

/-- C9 counterexample: the constructor accepts a 64-character uppercase-hex
hash, so a constructed fingerprint can violate the spec's lowercase
invariant. -/
theorem c9_uppercase_counterexample :
    Fingerprint.new upperHash64 FingerprintComponents.default (1/2) =
      some ⟨upperHash64, FingerprintComponents.default, 1/2⟩
    ∧ upperHash64.data.all isLowerHexDigit = false := by
  constructor
  · have hlen : (utf8Encode upperHash64).length = 64 := by decide
    have hall : upperHash64.data.all isAsciiHexdigit = true := by decide
    unfold Fingerprint.new
    rw [if_neg (by push_neg; exact ⟨hlen, hall⟩),
      if_neg (not_not.mpr ⟨by norm_num, by norm_num⟩)]
  · decide

/-- C9 amended: `Fingerprint::new` accepts exactly the hashes of 64 ASCII
hex digits of either case (the length check is the UTF-8 byte length) with
a confidence in the inclusive range 0 to 1, and returns `None` (an error
value, not a panic) on every other input; the lowercase part of the
invariant is not enforced by the constructor. -/
theorem c9_constructor_amended (h : String) (comps : FingerprintComponents) (q : ℚ) :
    (Fingerprint.new h comps q).isSome = true ↔
      ((utf8Encode h).length = 64 ∧ h.data.all isAsciiHexdigit = true ∧ 0 ≤ q ∧ q ≤ 1) := by
  unfold Fingerprint.new
  by_cases hA : (utf8Encode h).length ≠ 64 ∨ ¬(h.data.all isAsciiHexdigit = true)
  · rw [if_pos hA]
    constructor
    · intro hfalse
      exact absurd hfalse (by decide)
    · rintro ⟨h1, h2, -, -⟩
      rcases hA with hA | hA
      · exact absurd h1 hA
      · exact absurd h2 hA
  · rw [if_neg hA]
    by_cases hB : ¬(0 ≤ q ∧ q ≤ 1)
    · rw [if_pos hB]
      constructor
      · intro hfalse
        exact absurd hfalse (by decide)
      · rintro ⟨-, -, h3, h4⟩
        exact absurd ⟨h3, h4⟩ hB
    · rw [if_neg hB]
      push_neg at hA
      have hB2 := not_not.mp hB
      constructor
      · intro _
        exact ⟨hA.1, hA.2, hB2.1, hB2.2⟩
      · intro _
        rfl

/-- C9 witness: the constructor characterization applied at a concrete
well-formed hash. -/
theorem c9_constructor_witness :
    (Fingerprint.new (sha256Hex []) FingerprintComponents.default 1).isSome = true :=
  (c9_constructor_amended (sha256Hex []) FingerprintComponents.default 1).mpr
    ⟨(sha256Hex_hexOk []).1, (sha256Hex_hexOk []).2.1, by norm_num, by norm_num⟩

/-- Consumed-nonce predicate: the store holds a live entry for the nonce's
key. -/
def nonceMarked (st : RedisState) (now : Int) (nonce : String) : Bool :=
  (st.lookup now ("nonce:" ++ nonce)).isSome

theorem validate_nonce_fresh (v : NonceValidator) (st : RedisState) (now : Int) (n : String)
    (hl : st.lookup now ("nonce:" ++ n) = none) :
    v.validate_nonce st now n =
      (true,
       RedisState.setExpire
         ⟨⟨"nonce:" ++ n, "1", none⟩ ::
           st.entries.filter (fun e => !(e.key == "nonce:" ++ n))⟩
         now ("nonce:" ++ n) v.ttl_seconds,
       [.setnx ("nonce:" ++ n) "1", .expire ("nonce:" ++ n) v.ttl_seconds]) := by
  simp only [NonceValidator.validate_nonce, RedisState.setnx, setnxReply, hl,
    Option.isSome_some, if_true]

theorem validate_nonce_marked (v : NonceValidator) (st : RedisState) (now : Int) (n : String)
    (e : RedisEntry) (hl : st.lookup now ("nonce:" ++ n) = some e) :
    v.validate_nonce st now n =
      (true, st.setExpire now ("nonce:" ++ n) v.ttl_seconds,
       [.setnx ("nonce:" ++ n) "1", .expire ("nonce:" ++ n) v.ttl_seconds]) := by
  simp only [NonceValidator.validate_nonce, RedisState.setnx, setnxReply, hl,
    Option.isSome_some, if_true]

theorem lookup_head_after_expire (k : String) (rest : List RedisEntry) (now ttl : Int)
    (h : 0 < ttl) :
    (RedisState.setExpire ⟨⟨k, "1", none⟩ :: rest⟩ now k ttl).lookup now k =
      some ⟨k, "1", some (now + ttl)⟩ := by
  have hlt : now < now + ttl := by omega
  simp only [RedisState.setExpire, RedisState.lookup, List.map_cons, entryLive,
    beq_self_eq_true, Bool.true_and, Bool.and_true, if_true, List.find?_cons,
    decide_eq_true hlt]

theorem find?_map_inv (l : List RedisEntry) (g : RedisEntry → RedisEntry)
    (p : RedisEntry → Bool) (hp : ∀ e, p (g e) = p e) :
    (l.map g).find? p = (l.find? p).map g := by
  rw [List.find?_map, show p ∘ g = p from funext hp]

theorem lookup_setExpire (st : RedisState) (now : Int) (k : String) (ttl : Int)
    (h : 0 < ttl) :
    (st.setExpire now k ttl).lookup now k =
      (st.lookup now k).map (fun e => ⟨e.key, e.val, some (now + ttl)⟩) := by
  unfold RedisState.setExpire RedisState.lookup
  rw [find?_map_inv _ _ _ ?hp]
  case hp =>
    intro e2
    by_cases h2 : (e2.key == k && entryLive now e2) = true
    · rw [if_pos h2]
      have hkey : (e2.key == k) = true := (Bool.and_eq_true_iff.mp h2).1
      show (e2.key == k && entryLive now ⟨e2.key, e2.val, some (now + ttl)⟩) = _
      rw [h2, hkey]
      simp only [entryLive, Bool.true_and]
      rw [decide_eq_true (by omega : now < now + ttl)]
    · rw [if_neg h2]
  rcases hf : st.entries.find? (fun e => e.key == k && entryLive now e) with - | e
  · rw [hf]
    rfl
  · rw [hf]
    simp only [Option.map]
    rw [if_pos (List.find?_some hf)]

theorem wrap_abs_small (d : Int) (h : d.natAbs ≤ 300000) :
    ¬(300000 < absI64 (wrapI64 d)) := by
  unfold absI64 wrapI64
  split_ifs <;> omega

theorem wrap_abs_far (d : Int) (hfar : 300000 < d.natAbs)
    (hrange : d.natAbs < 9223372036854775808) :
    300000 < absI64 (wrapI64 d) := by
  unfold absI64 wrapI64
  split_ifs <;> omega

/-- C2 counterexample: at timestamp i64::MIN with the clock at 0 the
mathematical distance 2^63 ms far exceeds the window, yet the wrapping i64
subtraction and `abs` of the release build land on i64::MIN, which is not
greater than 300,000 — the request passes the freshness check instead of
being rejected as expired (a debug build would panic on the overflow
instead). -/
theorem c2_wrap_counterexample :
    parseI64 "-9223372036854775808" = some (-9223372036854775808)
    ∧ 300000 < ((0 : Int) - (-9223372036854775808)).natAbs
    ∧ validate_timestamp 0 "-9223372036854775808" = .ok ()
    ∧ (hmac_auth (NonceValidator.new none) none 0 0 RedisState.empty
        ⟨some "-9223372036854775808", some "n", some "sig", []⟩).1 ≠
        .error .timestampExpired := by
  refine ⟨by decide, by decide, by decide, by decide⟩

/-- C2 amended: a request whose timestamp parses to a value more than
300,000 ms from the server clock in either direction is rejected with the
TimestampExpired reason — provided the difference stays inside the i64
range, where the wrapping subtraction agrees with the mathematical one —
for every supplied signature, and with the nonce store left untouched: the
freshness check precedes both the nonce mark and the signature
verification. -/
theorem c2_freshness_rejects_expired
    (nv : NonceValidator) (env : Option String) (nowMs snow : Int) (st : RedisState)
    (ts nonce sig : String) (body : List Nat) (t : Int)
    (hparse : parseI64 ts = some t) (hfar : 300000 < (nowMs - t).natAbs)
    (hrange : (nowMs - t).natAbs < 9223372036854775808) :
    hmac_auth nv env nowMs snow st ⟨some ts, some nonce, some sig, body⟩ =
      (.error .timestampExpired, st) := by
  simp only [hmac_auth, extract_header, validate_timestamp, hparse]
  rw [if_pos (wrap_abs_far _ hfar hrange)]

/-- C2 witness: a request 400,001 ms in the future is rejected as expired
with the store untouched. -/
theorem c2_freshness_witness :
    hmac_auth (NonceValidator.new none) none 0 0 RedisState.empty
      ⟨some "400001", some "n", some "sig", []⟩ =
      (.error .timestampExpired, RedisState.empty) :=
  c2_freshness_rejects_expired (NonceValidator.new none) none 0 0 RedisState.empty
    "400001" "n" "sig" [] 400001 (by decide) (by decide) (by decide)

/-- Store already holding the consumed nonce "n". -/
def stMarkedC3 : RedisState := ⟨[⟨"nonce:n", "1", none⟩]⟩

/-- C3: the replay rejection does not exist in the code. SETNX answers with
an integer reply, whose `Option<String>` conversion is always `Some`, so
`result.is_some()` holds for a consumed nonce too: `validate_nonce` reports
the replayed nonce as new, and a resubmitted, correctly signed request is
accepted instead of being rejected with the replay reason — contradicting
nonce.rs's own documented contract ("Returns false if nonce was already
used"). -/
theorem c3_replay_accepted :
    nonceMarked stMarkedC3 0 "n" = true
    ∧ ((NonceValidator.new none).validate_nonce stMarkedC3 0 "n").1 = true
    ∧ (hmac_auth (NonceValidator.new none) none 0 0 stMarkedC3
        ⟨some "0", some "n",
         some (compute_signature (auth_message "0" "n" []) devKey), []⟩).1 = .ok () := by
  refine ⟨by decide, by decide, by decide⟩

/-- C4 counterexample: check-and-mark for a fresh nonce issues two separate
store commands — a `SET NX` carrying no TTL, then an `EXPIRE` — not one
conditional-set-with-expiry; and "exactly one invocation observes new"
fails: the immediate second call for the same nonce also reports new. -/
theorem c4_split_counterexample :
    ((NonceValidator.new none).validate_nonce RedisState.empty 0 "abc").2.2 =
      [.setnx "nonce:abc" "1", .expire "nonce:abc" 300]
    ∧ ((NonceValidator.new none).validate_nonce RedisState.empty 0 "abc").2.2.length ≠ 1
    ∧ ((NonceValidator.new none).validate_nonce
        ((NonceValidator.new none).validate_nonce RedisState.empty 0 "abc").2.1
        0 "abc").1 = true := by
  refine ⟨rfl, by decide, by decide⟩

/-- C4 amended: check-and-mark is an atomic `SET NX` — which never
overwrites an existing key — followed on every call by a second, separate
`EXPIRE` store command, never one conditional-set-with-expiry; and because
the SETNX integer reply converts to a `Some` value, every invocation
reports "new": a fresh call creates the key and applies the TTL, while a
call on an already-marked nonce keeps the stored value but refreshes its
TTL, so no invocation ever observes "already used". -/
theorem c4_setnx_then_expire_amended :
    (∀ (v : NonceValidator) (st : RedisState) (now : Int) (n : String),
      (v.validate_nonce st now n).1 = true
      ∧ (v.validate_nonce st now n).2.2 =
          [.setnx ("nonce:" ++ n) "1", .expire ("nonce:" ++ n) v.ttl_seconds])
    ∧ (∀ (v : NonceValidator) (st : RedisState) (now : Int) (n : String),
      0 < v.ttl_seconds → st.lookup now ("nonce:" ++ n) = none →
      (v.validate_nonce st now n).2.1.lookup now ("nonce:" ++ n) =
        some ⟨"nonce:" ++ n, "1", some (now + v.ttl_seconds)⟩)
    ∧ (∀ (v : NonceValidator) (st : RedisState) (now : Int) (n : String) (e : RedisEntry),
      0 < v.ttl_seconds → st.lookup now ("nonce:" ++ n) = some e →
      (v.validate_nonce st now n).2.1.lookup now ("nonce:" ++ n) =
        some ⟨e.key, e.val, some (now + v.ttl_seconds)⟩) := by
  refine ⟨?_, ?_, ?_⟩
  · intro v st now n
    rcases hl : st.lookup now ("nonce:" ++ n) with - | e
    · rw [validate_nonce_fresh v st now n hl]
      exact ⟨rfl, rfl⟩
    · rw [validate_nonce_marked v st now n e hl]
      exact ⟨rfl, rfl⟩
  · intro v st now n httl hl
    have httl2 : (0 : Int) < (v.ttl_seconds : Int) := by exact_mod_cast httl
    rw [validate_nonce_fresh v st now n hl]
    exact lookup_head_after_expire _ _ _ _ httl2
  · intro v st now n e httl hl
    have httl2 : (0 : Int) < (v.ttl_seconds : Int) := by exact_mod_cast httl
    rw [validate_nonce_marked v st now n e hl]
    show (st.setExpire now ("nonce:" ++ n) v.ttl_seconds).lookup now ("nonce:" ++ n) = _
    rw [lookup_setExpire _ _ _ _ httl2, hl]
    rfl

/-- C4 witness: the fresh-nonce marking conjunct applied at a concrete
validator and store. -/
theorem c4_setnx_then_expire_witness :
    ((NonceValidator.new none).validate_nonce RedisState.empty 5 "xyz").2.1.lookup 5
      ("nonce:" ++ "xyz") =
      some ⟨"nonce:" ++ "xyz", "1",
        some (5 + ((NonceValidator.new none).ttl_seconds : Int))⟩ :=
  c4_setnx_then_expire_amended.2.1 (NonceValidator.new none) RedisState.empty 5 "xyz"
    (by decide) (by decide)

/-- C6: the signed message does not use the raw body bytes verbatim — the
body passes through the lossy UTF-8 conversion, so the invalid-UTF-8 body
0xFF yields the same signed message (and hence the same signature under
every key) as the distinct body EF BF BD, and the message bytes differ from
the raw body bytes. -/
theorem c6_lossy_body_not_verbatim :
    auth_message "0" "n" [255] = auth_message "0" "n" [239, 191, 189]
    ∧ ([255] : List Nat) ≠ [239, 191, 189]
    ∧ utf8Encode (utf8Lossy [255]) ≠ [255]
    ∧ ∀ key : List Nat,
        compute_signature (auth_message "0" "n" [255]) key =
          compute_signature (auth_message "0" "n" [239, 191, 189]) key := by
  have hmsg : auth_message "0" "n" [255] = auth_message "0" "n" [239, 191, 189] := by decide
  exact ⟨hmsg, by decide, by decide, fun key => by rw [hmsg]⟩

/-- C10: the verification key is read from the environment on each request;
when the variable is unset or not valid hex, the key deterministically
falls back to the hardcoded development bytes, and a client signing
`"{timestamp}:{nonce}:{body}"` with that constant produces a request the
middleware accepts. -/
theorem c10_dev_key_fallback
    (nv : NonceValidator) (env : Option String) (nowMs snow : Int) (st : RedisState)
    (ts nonce : String) (body : List Nat) (t : Int)
    (henv : env.bind hexDecode = none)
    (hparse : parseI64 ts = some t) (hfresh : (nowMs - t).natAbs ≤ 300000)
    (hnonce : st.lookup snow ("nonce:" ++ nonce) = none) :
    get_hmac_key env = devKey
    ∧ (hmac_auth nv env nowMs snow st
        ⟨some ts, some nonce,
         some (compute_signature (auth_message ts nonce body) devKey), body⟩).1 = .ok () := by
  have hkey : get_hmac_key env = devKey := by
    rw [get_hmac_key, henv]
    rfl
  refine ⟨hkey, ?_⟩
  simp only [hmac_auth, extract_header, validate_timestamp, hparse]
  rw [if_neg (wrap_abs_small _ hfresh)]
  rw [validate_nonce_fresh nv st snow nonce hnonce]
  simp only [Bool.not_true, Bool.false_eq_true, if_false, hkey, beq_self_eq_true, if_true]

/-- C10 witness: the fallback-and-forge theorem applied with an
undecodable environment value, a fresh store and a zero clock. -/
theorem c10_dev_key_fallback_witness :
    get_hmac_key (some "zz") = devKey
    ∧ (hmac_auth (NonceValidator.new none) (some "zz") 0 0 RedisState.empty
        ⟨some "0", some "n",
         some (compute_signature (auth_message "0" "n" []) devKey), []⟩).1 = .ok () :=
  c10_dev_key_fallback (NonceValidator.new none) (some "zz") 0 0 RedisState.empty
    "0" "n" [] 0 (by decide) (by decide) (by decide) (by decide)

/-- Current rate-limit counter for an identity: the live stored value, 0
for a missing or expired key. -/
def rateCount (st : RedisState) (now : Int) (identifier : String) : Int :=
  match st.lookup now ("ratelimit:" ++ identifier) with
  | some e => (parseI64 e.val).getD 0
  | none => 0

theorem lookup_incr_some (st : RedisState) (now : Int) (k : String) (e : RedisEntry)
    (hl : st.lookup now k = some e) :
    (st.incr now k).1 = (parseI64 e.val).getD 0 + 1
    ∧ (st.incr now k).2.lookup now k =
        some ⟨e.key, toString ((parseI64 e.val).getD 0 + 1), e.expiry⟩ := by
  unfold RedisState.incr
  rw [hl]
  refine ⟨rfl, ?_⟩
  show RedisState.lookup _ now k = _
  unfold RedisState.lookup at hl ⊢
  rw [find?_map_inv _ _ _ ?hp]
  case hp =>
    intro e2
    by_cases h : (e2.key == k && entryLive now e2) = true
    · rw [if_pos h]
      rfl
    · rw [if_neg h]
  rw [hl]
  simp only [Option.map]
  rw [if_pos (List.find?_some hl)]

theorem lookup_incr_none (st : RedisState) (now : Int) (k : String)
    (hl : st.lookup now k = none) :
    (st.incr now k).1 = 1
    ∧ (st.incr now k).2.lookup now k = some ⟨k, "1", none⟩ := by
  unfold RedisState.incr
  rw [hl]
  refine ⟨rfl, ?_⟩
  show RedisState.lookup _ now k = _
  unfold RedisState.lookup
  simp only [List.find?_cons, beq_self_eq_true, entryLive, Bool.and_true, Bool.true_and]

theorem check_fst (rl : RateLimiter) (st : RedisState) (now : Int) (identifier : String) :
    (rl.check st now identifier).1 =
      decide ((st.incr now ("ratelimit:" ++ identifier)).1 ≤ (rl.max_requests : Int)) := by
  unfold RateLimiter.check
  by_cases h : (st.incr now ("ratelimit:" ++ identifier)).1 = 1
  · rw [if_pos h]
  · rw [if_neg h]

/-- Rate limiter of the spec's admission scenario: max 2 per 60-second
window. -/
def rlC5 : RateLimiter := ⟨2, 60⟩

/-- Store after the scenario's first check. -/
def c5st1 : RedisState := (rlC5.check RedisState.empty 0 "ip").2.1

/-- Store after the scenario's second check. -/
def c5st2 : RedisState := (rlC5.check c5st1 0 "ip").2.1

/-- Store after the scenario's third check. -/
def c5st3 : RedisState := (rlC5.check c5st2 0 "ip").2.1

/-- C5: the check increments first and admits exactly when the
post-increment count is at most the maximum; the incremented value is
stored even on rejection; the window expiry is set exactly when the
post-increment count is 1 and preserved otherwise; and in the scenario with
max 2 per window the first two calls admit, the third rejects leaving the
counter at 3, and a call after the window TTL has elapsed admits again. -/
theorem c5_rate_limiter_check :
    (∀ (rl : RateLimiter) (st : RedisState) (now : Int) (identifier : String),
      (rl.check st now identifier).1 =
        decide (rateCount st now identifier + 1 ≤ (rl.max_requests : Int)))
    ∧ (∀ (rl : RateLimiter) (st : RedisState) (now : Int) (identifier : String),
      0 < rl.window_seconds →
      (((rl.check st now identifier).2.1.lookup now ("ratelimit:" ++ identifier)).map
          RedisEntry.val) = some (toString (rateCount st now identifier + 1)))
    ∧ (∀ (rl : RateLimiter) (st : RedisState) (now : Int) (identifier : String),
      0 < rl.window_seconds →
      st.lookup now ("ratelimit:" ++ identifier) = none →
      (rl.check st now identifier).2.1.lookup now ("ratelimit:" ++ identifier) =
        some ⟨"ratelimit:" ++ identifier, "1", some (now + rl.window_seconds)⟩)
    ∧ (∀ (rl : RateLimiter) (st : RedisState) (now : Int) (identifier : String)
        (e : RedisEntry),
      st.lookup now ("ratelimit:" ++ identifier) = some e →
      (parseI64 e.val).getD 0 + 1 ≠ 1 →
      (rl.check st now identifier).2.1.lookup now ("ratelimit:" ++ identifier) =
        some ⟨e.key, toString ((parseI64 e.val).getD 0 + 1), e.expiry⟩)
    ∧ ((rlC5.check RedisState.empty 0 "ip").1 = true
      ∧ (rlC5.check c5st1 0 "ip").1 = true
      ∧ (rlC5.check c5st2 0 "ip").1 = false
      ∧ rateCount c5st3 0 "ip" = 3
      ∧ rateCount c5st3 60 "ip" = 0
      ∧ (rlC5.check c5st3 60 "ip").1 = true) := by
  have hexpiry : ∀ (rl : RateLimiter) (st : RedisState) (now : Int) (identifier : String),
      0 < rl.window_seconds →
      st.lookup now ("ratelimit:" ++ identifier) = none →
      (rl.check st now identifier).2.1.lookup now ("ratelimit:" ++ identifier) =
        some ⟨"ratelimit:" ++ identifier, "1", some (now + rl.window_seconds)⟩ := by
    intro rl st now identifier hwin hl
    have hwin2 : (0 : Int) < (rl.window_seconds : Int) := by exact_mod_cast hwin
    have h1 := lookup_incr_none st now ("ratelimit:" ++ identifier) hl
    simp only [RateLimiter.check]
    rw [h1.1, if_pos rfl]
    dsimp only
    rw [lookup_setExpire _ _ _ _ hwin2, h1.2]
    rfl
  refine ⟨?_, ?_, hexpiry, ?_, ?_⟩
  · intro rl st now identifier
    rw [check_fst]
    rcases hl : st.lookup now ("ratelimit:" ++ identifier) with - | e
    · rw [(lookup_incr_none st now _ hl).1]
      unfold rateCount
      rw [hl, zero_add]
    · rw [(lookup_incr_some st now _ e hl).1]
      unfold rateCount
      rw [hl]
  · intro rl st now identifier hwin
    rcases hl : st.lookup now ("ratelimit:" ++ identifier) with - | e
    · rw [hexpiry rl st now identifier hwin hl]
      unfold rateCount
      rw [hl, zero_add]
      rfl
    · have hwin2 : (0 : Int) < (rl.window_seconds : Int) := by exact_mod_cast hwin
      have h1 := lookup_incr_some st now ("ratelimit:" ++ identifier) e hl
      have hrc : rateCount st now identifier = (parseI64 e.val).getD 0 := by
        unfold rateCount
        rw [hl]
      by_cases hc : (st.incr now ("ratelimit:" ++ identifier)).1 = 1
      · simp only [RateLimiter.check]
        rw [if_pos hc]
        dsimp only
        rw [lookup_setExpire _ _ _ _ hwin2, h1.2]
        rw [hrc]
        rfl
      · simp only [RateLimiter.check]
        rw [if_neg hc]
        dsimp only
        rw [h1.2, hrc]
        rfl
  · intro rl st now identifier e hl hc
    have h1 := lookup_incr_some st now ("ratelimit:" ++ identifier) e hl
    have hc2 : ¬((st.incr now ("ratelimit:" ++ identifier)).1 = 1) := by
      rw [h1.1]
      exact hc
    simp only [RateLimiter.check]
    rw [if_neg hc2]
    dsimp only
    exact h1.2
  · exact ⟨by decide, by decide, by decide, by decide, by decide, by decide⟩

/-- C5 witness: the stored-counter conjunct applied at a fresh store, with
the positive-window hypothesis discharged concretely. -/
theorem c5_rate_limiter_check_witness :
    (((rlC5.check RedisState.empty 0 "ip").2.1.lookup 0 ("ratelimit:" ++ "ip")).map
        RedisEntry.val) = some (toString (rateCount RedisState.empty 0 "ip" + 1)) :=
  c5_rate_limiter_check.2.1 rlC5 RedisState.empty 0 "ip" (by decide)
